import Mathlib

/-!
Shallow embedding of the DisasterSim browser game: the phase and scoring
state machine shared by the earthquake, landslide and flood modules
(src/main.js, src/flood-sim.js and the unnamed earthquake, landslide and
badge source files).  Pure methods of the JS classes become Lean functions
on explicit session records; the bodies of setTimeout and
requestAnimationFrame callbacks become explicit step functions on the
state, with the pending phase-advance timers carried in the state.
JS numbers are modelled by the rationals where they can be fractional, by
the integers where the code keeps them integral; Math.floor is the floor
on the rationals.  Fields holding JS undefined are modelled by Option.
-/

/-- Replace the element at an index by f of it, leaving the list unchanged
when the index is out of range (mirrors array index guards in the source
such as the student and desk lookup of onCorrectDrop). -/
def listUpdate {α : Type} : List α → Nat → (α → α) → List α
  | [], _, _ => []
  | a :: rest, 0, f => f a :: rest
  | a :: rest, n + 1, f => a :: listUpdate rest n f

/-- A phase table entry: this.phases of every module holds name and
duration in milliseconds. -/
structure Phase where
  name : String
  duration : Nat
deriving DecidableEq

/-- The phase-machine part of a simulation session: this.currentPhase, the
completion latch (set when startPhase runs past the end of the table) and
the pending setTimeout phase-advance timers, each carrying the phase index
the closure captured and the delay it was scheduled with.  reset and
cleanup never clear these timers (the setTimeout handle is discarded). -/
structure PhaseState where
  currentPhase : Nat
  completed : Bool
  pending : List (Nat × Nat)
deriving DecidableEq

/-- startPhase(phaseIndex) as written identically in all three modules:
past the end of the table it triggers completeSimulation, otherwise it
sets currentPhase and schedules one auto-advance timer for this phase with
the configured duration. -/
def startPhase (phases : List Phase) (s : PhaseState) (n : Nat) : PhaseState :=
  if n ≥ phases.length then { s with completed := true }
  else
    { currentPhase := n,
      completed := s.completed,
      pending := (n, (phases.getD n ⟨"", 0⟩).duration) :: s.pending }

/-- Firing one pending timer: the setTimeout body advances to the captured
index plus one only when currentPhase still equals the captured index. -/
def fireTimer (phases : List Phase) (s : PhaseState) (t : Nat × Nat) : PhaseState :=
  let s1 : PhaseState := { s with pending := s.pending.erase t }
  if s1.currentPhase = t.1 then startPhase phases s1 (t.1 + 1) else s1

/-- The earthquake phase table. -/
def earthquakePhases : List Phase :=
  [⟨"preparation", 30000⟩, ⟨"earthquake", 45000⟩,
   ⟨"aftermath", 60000⟩, ⟨"evacuation", 90000⟩]

/-- The flood phase table. -/
def floodPhases : List Phase :=
  [⟨"preparation", 60000⟩, ⟨"early_flood", 90000⟩,
   ⟨"rescue_ops", 120000⟩, ⟨"recovery", 90000⟩]

/-- The landslide phase table. -/
def landslidePhases : List Phase :=
  [⟨"warning_signs", 45000⟩, ⟨"early_warning", 60000⟩,
   ⟨"evacuation", 90000⟩, ⟨"landslide_event", 30000⟩]

/-- The five learning objective flags of the earthquake module. -/
structure EqObjectives where
  dropCoverHold : Bool
  stayCalm : Bool
  checkInjuries : Bool
  evacuateSafely : Bool
  assembleAtSafePoint : Bool
deriving DecidableEq

/-- Object.values of the objective set, in declaration order. -/
def EqObjectives.values (o : EqObjectives) : List Bool :=
  [o.dropCoverHold, o.stayCalm, o.checkInjuries, o.evacuateSafely, o.assembleAtSafePoint]

/-- Object.values(this.objectives).filter(Boolean).length. -/
def EqObjectives.count (o : EqObjectives) : Nat :=
  (o.values.filter id).length

/-- A student entity: the safe and evacuated status flags of its userData. -/
structure Student where
  safe : Bool
  evacuated : Bool
deriving DecidableEq

/-- The mutable session state of EarthquakeSimulation. -/
structure EqSession where
  phase : PhaseState
  score : ℤ
  accuracy : ℚ
  mistakes : Nat
  evacuatedStudents : Nat
  isEarthquakeActive : Bool
  students : List Student
  objectives : EqObjectives
deriving DecidableEq

namespace EarthquakeSimulation

def totalStudents : Nat := 8

def maxMistakes : Nat := 3

/-- createDesks builds 4 rows of 2 desks. -/
def numDesks : Nat := 8

/-- The record calculateFinalScore returns. -/
structure ScoreResult where
  baseScore : ℤ
  timeBonus : ℤ
  accuracyBonus : ℤ
  objectiveBonus : ℤ
  total : ℤ
  timeElapsed : ℤ
  accuracy : ℚ
  objectives : EqObjectives
deriving DecidableEq

/-- calculateFinalScore of the earthquake module; timeElapsed is the
elapsed seconds (performance.now() minus startTime, over 1000). -/
def calculateFinalScore (s : EqSession) (timeElapsed : ℚ) : ScoreResult :=
  let baseScore := s.score
  let maxTime : ℚ := 300
  let timeBonus : ℤ := max 0 ⌊(maxTime - timeElapsed) / maxTime * 200⌋
  let accuracyBonus : ℤ := ⌊s.accuracy * 2⌋
  let objectiveBonus : ℤ := (s.objectives.count : ℤ) * 100
  { baseScore := baseScore,
    timeBonus := timeBonus,
    accuracyBonus := accuracyBonus,
    objectiveBonus := objectiveBonus,
    total := baseScore + timeBonus + accuracyBonus + objectiveBonus,
    timeElapsed := ⌊timeElapsed⌋,
    accuracy := s.accuracy,
    objectives := s.objectives }

/-- onCorrectDrop(studentId, deskId): with both indices valid, the student
is marked safe, 100 points are added, and dropCoverHold is set once at
least 75 percent of the students are safe. -/
def onCorrectDrop (s : EqSession) (studentIdx deskIdx : Nat) : EqSession :=
  if studentIdx < s.students.length ∧ deskIdx < numDesks then
    let students := listUpdate s.students studentIdx (fun st => { st with safe := true })
    let objectives :=
      if ((students.filter (·.safe)).length : ℚ) ≥ (totalStudents : ℚ) * (3 / 4) then
        { s.objectives with dropCoverHold := true }
      else s.objectives
    { s with students := students, score := s.score + 100, objectives := objectives }
  else s

/-- onIncorrectDrop: one more mistake, accuracy lowered by 10 with floor
0; the Bool is whether the failure warning (showErrorMessage) is shown,
which happens once mistakes reaches maxMistakes. -/
def onIncorrectDrop (s : EqSession) : EqSession × Bool :=
  let s1 := { s with mistakes := s.mistakes + 1, accuracy := max 0 (s.accuracy - 10) }
  (s1, decide (s1.mistakes ≥ maxMistakes))

/-- onDeskClick adds 10 points (the educational popup is presentation). -/
def onDeskClick (s : EqSession) : EqSession :=
  { s with score := s.score + 10 }

/-- onExitClick adds 10 points. -/
def onExitClick (s : EqSession) : EqSession :=
  { s with score := s.score + 10 }

/-- onEmergencyKitInteract sets checkInjuries and adds 50 points. -/
def onEmergencyKitInteract (s : EqSession) : EqSession :=
  { s with objectives := { s.objectives with checkInjuries := true },
           score := s.score + 50 }

/-- The delayed completion body of evacuateStudent: the student is marked
evacuated, counted and scored, and once all students are evacuated the two
evacuation objectives are set. -/
def evacuateStudentDone (s : EqSession) (idx : Nat) : EqSession :=
  let students := listUpdate s.students idx (fun st => { st with evacuated := true })
  let evacuatedStudents := s.evacuatedStudents + 1
  let s1 := { s with students := students, evacuatedStudents := evacuatedStudents,
                     score := s.score + 50 }
  if evacuatedStudents ≥ totalStudents then
    { s1 with objectives :=
        { s1.objectives with evacuateSafely := true, assembleAtSafePoint := true } }
  else s1

end EarthquakeSimulation

/-- The gameplay operations of the earthquake module that touch session
state (reset is modelled separately; it is the only flag-clearing call). -/
inductive EqOp
  | correctDrop (studentIdx deskIdx : Nat)
  | incorrectDrop
  | deskClick
  | exitClick
  | emergencyKitInteract
  | evacuateStudentDone (idx : Nat)
  | startEarthquake
  | startAftermath
deriving DecidableEq

def EqOp.step : EqOp → EqSession → EqSession
  | .correctDrop i j, s => EarthquakeSimulation.onCorrectDrop s i j
  | .incorrectDrop, s => (EarthquakeSimulation.onIncorrectDrop s).1
  | .deskClick, s => EarthquakeSimulation.onDeskClick s
  | .exitClick, s => EarthquakeSimulation.onExitClick s
  | .emergencyKitInteract, s => EarthquakeSimulation.onEmergencyKitInteract s
  | .evacuateStudentDone i, s => EarthquakeSimulation.evacuateStudentDone s i
  | .startEarthquake, s => { s with isEarthquakeActive := true }
  | .startAftermath, s => { s with isEarthquakeActive := false }

/-- The five learning objective flags of the flood module. -/
structure FloodObjectives where
  prepareSupplies : Bool
  buildBarriers : Bool
  evacuateResidents : Bool
  rescueStranded : Bool
  establishShelter : Bool
deriving DecidableEq

/-- Object.values of the flood objective set, in declaration order. -/
def FloodObjectives.values (o : FloodObjectives) : List Bool :=
  [o.prepareSupplies, o.buildBarriers, o.evacuateResidents, o.rescueStranded,
   o.establishShelter]

/-- Object.values(this.objectives).filter(Boolean).length. -/
def FloodObjectives.count (o : FloodObjectives) : Nat :=
  (o.values.filter id).length

/-- A flood resident entity: the status flags of its userData plus the
fields the danger check reads (canSwim and the vertical position y). -/
structure Resident where
  rescued : Bool
  inShelter : Bool
  needsRescue : Bool
  stranded : Bool
  canSwim : Bool
  y : ℚ
deriving DecidableEq

/-- An evacuation center: capacity, occupants and stored supply units. -/
structure EvacCenter where
  capacity : Nat
  occupants : Nat
  supplies : Nat
deriving DecidableEq

/-- An emergency supply item: its collected flag and point value. -/
structure SupplyItem where
  collected : Bool
  points : ℤ
deriving DecidableEq

/-- The mutable session state of FloodSimulation. -/
structure FloodSession where
  phase : PhaseState
  score : ℤ
  accuracy : ℚ
  mistakes : Nat
  waterLevel : ℚ
  isFlooding : Bool
  rescuedResidents : Nat
  suppliesDistributed : Nat
  barriersBuilt : Nat
  residents : List Resident
  supplies : List SupplyItem
  centers : List EvacCenter
  objectives : FloodObjectives
deriving DecidableEq

namespace FloodSimulation

def totalResidents : Nat := 10

def maxWaterLevel : ℚ := 8

/-- this.floodSpeed = 0.02 (the nearest binary double differs from 1/50 by
under 1e-17; the thresholds compared against are coarse, so the rational
1/50 is used). -/
def floodSpeed : ℚ := 1 / 50

/-- The record calculateFinalScore returns. -/
structure ScoreResult where
  baseScore : ℤ
  timeBonus : ℤ
  accuracyBonus : ℤ
  objectiveBonus : ℤ
  rescueBonus : ℤ
  supplyBonus : ℤ
  total : ℤ
  timeElapsed : ℤ
  accuracy : ℚ
  objectives : FloodObjectives
  rescued : Nat
  suppliesOut : Nat
deriving DecidableEq

/-- calculateFinalScore of the flood module. -/
def calculateFinalScore (s : FloodSession) (timeElapsed : ℚ) : ScoreResult :=
  let baseScore := s.score
  let maxTime : ℚ := 450
  let timeBonus : ℤ := max 0 ⌊(maxTime - timeElapsed) / maxTime * 200⌋
  let accuracyBonus : ℤ := ⌊s.accuracy * 2⌋
  let objectiveBonus : ℤ := (s.objectives.count : ℤ) * 100
  let rescueBonus : ℤ := (s.rescuedResidents : ℤ) * 25
  let supplyBonus : ℤ := (s.suppliesDistributed : ℤ) * 15
  { baseScore := baseScore,
    timeBonus := timeBonus,
    accuracyBonus := accuracyBonus,
    objectiveBonus := objectiveBonus,
    rescueBonus := rescueBonus,
    supplyBonus := supplyBonus,
    total := baseScore + timeBonus + accuracyBonus + objectiveBonus + rescueBonus + supplyBonus,
    timeElapsed := ⌊timeElapsed⌋,
    accuracy := s.accuracy,
    objectives := s.objectives,
    rescued := s.rescuedResidents,
    suppliesOut := s.suppliesDistributed }

/-- checkResidentsInDanger, run on every animation frame of the
water-raising loop: every unrescued resident below waterLevel + 1 is
marked needing rescue, and for each such resident who cannot swim the
score drops 20 and the accuracy drops 5 - with no lower clamp. -/
def checkResidentsInDanger (s : FloodSession) : FloodSession :=
  let endangered := fun r : Resident => decide (r.y < s.waterLevel + 1) && !r.rescued
  let residents := s.residents.map fun r =>
    if endangered r then { r with needsRescue := true } else r
  let n : Nat := (s.residents.filter fun r => endangered r && !r.canSwim).length
  { s with residents := residents,
           score := s.score - 20 * n,
           accuracy := s.accuracy - 5 * n }

/-- One frame of startFloodAnimation: while flooding and below the
maximum, the water rises by floodSpeed and the danger check runs. -/
def raiseWaterFrame (s : FloodSession) : FloodSession :=
  if s.isFlooding ∧ s.waterLevel < maxWaterLevel then
    checkResidentsInDanger { s with waterLevel := s.waterLevel + floodSpeed }
  else s

/-- The delayed completion body of evacuateResident (the click-evacuation
path).  The source first finds the nearest evacuation center that still
has capacity; the geometric choice is abstracted as the chosen index, and
the capacity guard of the source is kept.  On completion the resident is
marked rescued and sheltered, the center gains an occupant, the rescued
count and score rise, and evacuateResidents is set once the count reaches
70 percent of the residents.  rescueStranded is not checked here. -/
def evacuateResidentDone (s : FloodSession) (residentIdx centerIdx : Nat) : FloodSession :=
  match s.centers.get? centerIdx with
  | none => s
  | some c =>
    if c.occupants < c.capacity then
      let residents := listUpdate s.residents residentIdx
        (fun r => { r with rescued := true, inShelter := true })
      let centers := listUpdate s.centers centerIdx
        (fun c => { c with occupants := c.occupants + 1 })
      let rescuedResidents := s.rescuedResidents + 1
      let s1 := { s with residents := residents, centers := centers,
                         rescuedResidents := rescuedResidents,
                         score := s.score + 50 }
      if (rescuedResidents : ℚ) ≥ (totalResidents : ℚ) * (7 / 10) then
        { s1 with objectives := { s1.objectives with evacuateResidents := true } }
      else s1
    else s

/-- The innermost delayed body of performRescue (the boat-rescue path;
boat passenger counts are never written by the source, so the capacity
guard of onBoatRescue always passes and boats carry no modelled state).
The resident is marked rescued and sheltered, the count and score rise,
and rescueStranded is set once every resident is rescued.
evacuateResidents is not checked here. -/
def performRescueDone (s : FloodSession) (residentIdx : Nat) : FloodSession :=
  let residents := listUpdate s.residents residentIdx
    (fun r => { r with rescued := true, inShelter := true })
  let rescuedResidents := s.rescuedResidents + 1
  let s1 := { s with residents := residents, rescuedResidents := rescuedResidents,
                     score := s.score + 75 }
  if rescuedResidents ≥ totalResidents then
    { s1 with objectives := { s1.objectives with rescueStranded := true } }
  else s1

/-- identifyStrandedResidents: every unrescued resident below
waterLevel + 2 is marked stranded and needing rescue. -/
def identifyStrandedResidents (s : FloodSession) : FloodSession :=
  { s with residents := s.residents.map fun r =>
      if !r.rescued && decide (r.y < s.waterLevel + 2) then
        { r with stranded := true, needsRescue := true }
      else r }

/-- onSupplyClick: an uncollected supply is collected, counted and scored,
and the nearest-center choice (abstracted as the index) gains a unit. -/
def onSupplyClick (s : FloodSession) (supplyIdx centerIdx : Nat) : FloodSession :=
  match s.supplies.get? supplyIdx with
  | none => s
  | some sup =>
    if sup.collected then s
    else
      let supplies := listUpdate s.supplies supplyIdx
        (fun x => { x with collected := true })
      let s1 := { s with supplies := supplies,
                         suppliesDistributed := s.suppliesDistributed + 1,
                         score := s.score + sup.points }
      match s1.centers.get? centerIdx with
      | none => s1
      | some _ =>
        let centers := listUpdate s1.centers centerIdx
          (fun c => { c with supplies := c.supplies + 1 })
        { s1 with centers := centers }

/-- The delayed per-supply body of distributeSuppliesToShelters: the
supply is collected, the chosen center gains a unit, the distributed count
and score rise, and prepareSupplies is set once 75 percent of the supplies
are distributed. -/
def distributeSupplyDone (s : FloodSession) (supplyIdx centerIdx : Nat) : FloodSession :=
  match s.supplies.get? supplyIdx, s.centers.get? centerIdx with
  | some sup, some _ =>
    let supplies := listUpdate s.supplies supplyIdx
      (fun x => { x with collected := true })
    let centers := listUpdate s.centers centerIdx
      (fun c => { c with supplies := c.supplies + 1 })
    let suppliesDistributed := s.suppliesDistributed + 1
    let s1 := { s with supplies := supplies, centers := centers,
                       suppliesDistributed := suppliesDistributed,
                       score := s.score + sup.points }
    if (suppliesDistributed : ℚ) ≥ (s.supplies.length : ℚ) * (3 / 4) then
      { s1 with objectives := { s1.objectives with prepareSupplies := true } }
    else s1
  | _, _ => s

/-- setupShelterOperations: establishShelter is set and 100 points added. -/
def setupShelterOperations (s : FloodSession) : FloodSession :=
  { s with objectives := { s.objectives with establishShelter := true },
           score := s.score + 100 }

/-- One frame of startWaterReceding. -/
def recedeWaterFrame (s : FloodSession) : FloodSession :=
  if s.waterLevel > -5 then { s with waterLevel := s.waterLevel - 1 / 100 }
  else { s with isFlooding := false }

/-- start() begins phase 0 (the gameplay timer origin is the elapsed-time
parameter of calculateFinalScore). -/
def start (s : FloodSession) : FloodSession :=
  { s with phase := startPhase floodPhases s.phase 0 }

/-- reset(): counters, accuracy, water, objective flags and entity status
flags return to their initial values and phase 0 restarts.  The pending
phase-advance timers are NOT cleared (the source discards the setTimeout
handles). -/
def reset (s : FloodSession) : FloodSession :=
  let s1 : FloodSession :=
    { s with
      phase := { s.phase with currentPhase := 0 },
      score := 0, accuracy := 100, mistakes := 0,
      rescuedResidents := 0, suppliesDistributed := 0, barriersBuilt := 0,
      isFlooding := false, waterLevel := -5,
      objectives := ⟨false, false, false, false, false⟩,
      residents := s.residents.map fun r =>
        { r with rescued := false, inShelter := false,
                 needsRescue := false, stranded := false },
      supplies := s.supplies.map fun x => { x with collected := false },
      centers := s.centers.map fun c => { c with occupants := 0, supplies := 0 } }
  { s1 with phase := startPhase floodPhases s1.phase 0 }

/-- A pending phase-advance timer firing against the whole session. -/
def fireSessionTimer (s : FloodSession) (t : Nat × Nat) : FloodSession :=
  { s with phase := fireTimer floodPhases s.phase t }

end FloodSimulation

/-- The gameplay operations of the flood module that touch session state
(reset is modelled separately; it is the only flag-clearing call). -/
inductive FloodOp
  | raiseWaterFrame
  | checkResidentsInDanger
  | identifyStrandedResidents
  | evacuateResidentDone (residentIdx centerIdx : Nat)
  | performRescueDone (residentIdx : Nat)
  | onSupplyClick (supplyIdx centerIdx : Nat)
  | distributeSupplyDone (supplyIdx centerIdx : Nat)
  | setupShelterOperations
  | startFlood
  | recedeWaterFrame
deriving DecidableEq

def FloodOp.step : FloodOp → FloodSession → FloodSession
  | .raiseWaterFrame, s => FloodSimulation.raiseWaterFrame s
  | .checkResidentsInDanger, s => FloodSimulation.checkResidentsInDanger s
  | .identifyStrandedResidents, s => FloodSimulation.identifyStrandedResidents s
  | .evacuateResidentDone i c, s => FloodSimulation.evacuateResidentDone s i c
  | .performRescueDone i, s => FloodSimulation.performRescueDone s i
  | .onSupplyClick i c, s => FloodSimulation.onSupplyClick s i c
  | .distributeSupplyDone i c, s => FloodSimulation.distributeSupplyDone s i c
  | .setupShelterOperations, s => FloodSimulation.setupShelterOperations s
  | .startFlood, s => { s with isFlooding := true }
  | .recedeWaterFrame, s => FloodSimulation.recedeWaterFrame s

/-- The five learning objective flags of the landslide module. -/
structure LsObjectives where
  identifyWarningSigns : Bool
  activateWarningSystem : Bool
  evacuateResidents : Bool
  reachSafeZone : Bool
  avoidDangerZone : Bool
deriving DecidableEq

/-- Object.values of the landslide objective set, in declaration order. -/
def LsObjectives.values (o : LsObjectives) : List Bool :=
  [o.identifyWarningSigns, o.activateWarningSystem, o.evacuateResidents,
   o.reachSafeZone, o.avoidDangerZone]

/-- Number of true objectives (the forEach accumulation of
completeSimulation adds 100 per true flag). -/
def LsObjectives.count (o : LsObjectives) : Nat :=
  (o.values.filter id).length

/-- A warning-sign object (crack, tilting tree or loose rock): its
identified status flag. -/
structure WarningSign where
  identified : Bool
deriving DecidableEq

/-- A landslide resident entity: its evacuated status flag. -/
structure LsResident where
  evacuated : Bool
deriving DecidableEq

/-- The mutable session state of LandslideSimulation.  safeZones holds the
evacuee count of each safe zone. -/
structure LsSession where
  phase : PhaseState
  score : ℤ
  accuracy : ℚ
  mistakes : Nat
  evacuatedResidents : Nat
  warningSystemActivated : Bool
  warningSignsFound : Nat
  warningSigns : List WarningSign
  residents : List LsResident
  safeZones : List Nat
  objectives : LsObjectives
deriving DecidableEq

namespace LandslideSimulation

def totalResidents : Nat := 6

/-- 3 cracks + 4 trees + 6 rocks. -/
def totalWarningSigns : Nat := 13

/-- onWarningSignClick: a not yet identified sign is marked identified and
counted for 10 points, and finding the fifth sign sets
identifyWarningSigns with a 50 point bonus. -/
def onWarningSignClick (s : LsSession) (idx : Nat) : LsSession :=
  match s.warningSigns.get? idx with
  | none => s
  | some w =>
    if w.identified then s
    else
      let warningSigns := listUpdate s.warningSigns idx
        (fun x => { x with identified := true })
      let warningSignsFound := s.warningSignsFound + 1
      let s1 := { s with warningSigns := warningSigns,
                         warningSignsFound := warningSignsFound,
                         score := s.score + 10 }
      if warningSignsFound ≥ 5 then
        { s1 with objectives := { s1.objectives with identifyWarningSigns := true },
                  score := s1.score + 50 }
      else s1

/-- activateWarningSystem: first activation latches the flag, sets the
objective and adds 100 points. -/
def activateWarningSystem (s : LsSession) : LsSession :=
  if s.warningSystemActivated then s
  else
    { s with warningSystemActivated := true,
             objectives := { s.objectives with activateWarningSystem := true },
             score := s.score + 100 }

/-- evacuateResident: a not yet evacuated resident is marked evacuated and
counted, the nearest safe zone (abstracted as the chosen index) gains an
evacuee, 50 points are added, and evacuating the last resident sets
evacuateResidents with a 200 point bonus. -/
def evacuateResident (s : LsSession) (idx zoneIdx : Nat) : LsSession :=
  match s.residents.get? idx with
  | none => s
  | some r =>
    if r.evacuated then s
    else
      let residents := listUpdate s.residents idx
        (fun x => { x with evacuated := true })
      let safeZones :=
        match s.safeZones.get? zoneIdx with
        | none => s.safeZones
        | some _ => listUpdate s.safeZones zoneIdx (fun n => n + 1)
      let evacuatedResidents := s.evacuatedResidents + 1
      let s1 := { s with residents := residents, safeZones := safeZones,
                         evacuatedResidents := evacuatedResidents,
                         score := s.score + 50 }
      if evacuatedResidents ≥ totalResidents then
        { s1 with objectives := { s1.objectives with evacuateResidents := true },
                  score := s1.score + 200 }
      else s1

/-- checkResidentSafety, run at the landslide event: each unevacuated
resident is a mistake, accuracy becomes max(0, 100 - mistakes * 10), and
with nobody in danger avoidDangerZone is set with 300 points. -/
def checkResidentSafety (s : LsSession) : LsSession :=
  let residentsInDanger := (s.residents.filter fun r => !r.evacuated).length
  if residentsInDanger = 0 then
    { s with objectives := { s.objectives with avoidDangerZone := true },
             score := s.score + 300 }
  else
    let mistakes := s.mistakes + residentsInDanger
    { s with mistakes := mistakes,
             accuracy := max 0 (100 - (mistakes : ℚ) * 10) }

/-- onDragDropComplete of the warning interface: a warning item dropped on
the community or authorities zone scores 25 (the delayed auto-activation
is the separate activateWarningSystem operation). -/
def onDragDropComplete (s : LsSession) (itemType zoneId : String) : LsSession :=
  if (zoneId = "community" ∨ zoneId = "authorities") ∧ itemType = "warning" then
    { s with score := s.score + 25 }
  else s

/-- The results record of the landslide completeSimulation: final score is
base plus 100 per true objective - no time bonus and no accuracy bonus -
and the elapsed seconds are rounded.  The record is only shown on the
completion screen. -/
structure LsResults where
  score : ℤ
  accuracy : ℚ
  timeElapsed : ℤ
  rating : String
deriving DecidableEq

/-- The score computation of the landslide completeSimulation. -/
def calculateResults (s : LsSession) (timeElapsed : ℚ) : LsResults :=
  let objectiveBonus : ℤ := (s.objectives.count : ℤ) * 100
  let finalScore := s.score + objectiveBonus
  let rating :=
    if finalScore ≥ 800 then "Excellent"
    else if finalScore ≥ 600 then "Good"
    else if finalScore ≥ 400 then "Fair"
    else "Needs Improvement"
  { score := finalScore,
    accuracy := s.accuracy,
    timeElapsed := ⌊timeElapsed + 1 / 2⌋,
    rating := rating }

end LandslideSimulation

/-- The gameplay operations of the landslide module that touch session
state (restart is the only flag-clearing call and is excluded like the
resets of the other modules). -/
inductive LsOp
  | onWarningSignClick (idx : Nat)
  | activateWarningSystem
  | evacuateResident (idx zoneIdx : Nat)
  | checkResidentSafety
  | onDragDropComplete (itemType zoneId : String)
deriving DecidableEq

def LsOp.step : LsOp → LsSession → LsSession
  | .onWarningSignClick i, s => LandslideSimulation.onWarningSignClick s i
  | .activateWarningSystem, s => LandslideSimulation.activateWarningSystem s
  | .evacuateResident i z, s => LandslideSimulation.evacuateResident s i z
  | .checkResidentSafety, s => LandslideSimulation.checkResidentSafety s
  | .onDragDropComplete t z, s => LandslideSimulation.onDragDropComplete s t z

/-- The three disaster types selectable at startup. -/
inductive Disaster
  | earthquake
  | landslide
  | flood
deriving DecidableEq

/-- The string key of a disaster (the badge of getBadgeForDisaster has id
equal to the disaster key). -/
def Disaster.id : Disaster → String
  | .earthquake => "earthquake"
  | .landslide => "landslide"
  | .flood => "flood"

/-- The result record a module passes to game.completeSimulation. -/
structure HostReport where
  disaster : Disaster
  score : ℤ
  timeBonus : ℤ
  accuracy : ℚ
deriving DecidableEq

/-- One entry of playerData.completedSimulations.  The controller stores
completed, score, timeBonus, accuracy and completedAt; it stores no
timeElapsed field, so that field is an Option and reading it in JS yields
undefined (none) for controller-written entries.  The spec scenario in
section 8 constructs entries with the field present (some). -/
structure CompletedSim where
  completed : Bool
  score : ℤ
  timeBonus : ℤ
  accuracy : ℚ
  completedAt : String
  timeElapsed : Option ℤ
deriving DecidableEq

/-- The persisted player profile of the parent controller. -/
structure PlayerData where
  totalScore : ℤ
  level : ℤ
  badges : List String
  completedSimulations : List (Disaster × CompletedSim)
deriving DecidableEq

/-- Reading playerStats.completedSimulations at a disaster key. -/
def lookupSim : List (Disaster × CompletedSim) → Disaster → Option CompletedSim
  | [], _ => none
  | (d, c) :: rest, key => if d = key then some c else lookupSim rest key

/-- Writing playerData.completedSimulations at a disaster key: an existing
key is overwritten in place, a new key is appended (JS object key order). -/
def updateSim : List (Disaster × CompletedSim) → Disaster → CompletedSim →
    List (Disaster × CompletedSim)
  | [], key, c => [(key, c)]
  | (d, c0) :: rest, key, c =>
    if d = key then (key, c) :: rest else (d, c0) :: updateSim rest key c

/-- allDisasters.every(d => playerData.completedSimulations[d]): only
presence of the entry is tested (JS truthiness of the record), not its
completed field. -/
def allSimsPresent (m : List (Disaster × CompletedSim)) : Bool :=
  [Disaster.earthquake, Disaster.landslide, Disaster.flood].all fun d =>
    (lookupSim m d).isSome

/-- A draggable item of the drag-drop panel: items carry a type tag.  The
id strings of the source (student_3, boat_1 and so on) encode an index. -/
structure DragItem where
  idx : Nat
  type : String
deriving DecidableEq

/-- A drop zone of the drag-drop panel: zones carry the set of accepted
type tags. -/
structure DropZone where
  idx : Nat
  accepts : List String
deriving DecidableEq

namespace DisasterSimGame

/-- The classification inside the drop event listener of
showDragDropPanel: zone.accepts.includes(draggedElement.dataset.type). -/
def dropIsCorrect (item : DragItem) (zone : DropZone) : Bool :=
  zone.accepts.contains item.type

/-- The drop event listener of showDragDropPanel against an earthquake
session: a correct drop notifies onCorrectDrop, an incorrect one notifies
onIncorrectDrop; the Bool is whether the failure warning was shown. -/
def handleEarthquakeDrop (s : EqSession) (item : DragItem) (zone : DropZone) :
    EqSession × Bool :=
  if dropIsCorrect item zone then
    (EarthquakeSimulation.onCorrectDrop s item.idx zone.idx, false)
  else EarthquakeSimulation.onIncorrectDrop s

/-- completeSimulation(results) of the main controller: totalScore grows
by score + timeBonus, the completion entry is recorded (with no
timeElapsed field), the level is raised to floor(totalScore/1000) + 1 when
that is higher, the badge for the completed disaster is pushed if absent,
and the master badge is pushed once all three disasters have entries and
it is absent.  No badge requirement predicate is evaluated here. -/
def completeSimulation (p : PlayerData) (r : HostReport) (now : String) : PlayerData :=
  let totalScore := p.totalScore + r.score + r.timeBonus
  let sims := updateSim p.completedSimulations r.disaster
    { completed := true, score := r.score, timeBonus := r.timeBonus,
      accuracy := r.accuracy, completedAt := now, timeElapsed := none }
  let newLevel : ℤ := ⌊(totalScore : ℚ) / 1000⌋ + 1
  let level := if newLevel > p.level then newLevel else p.level
  let badgeId := r.disaster.id
  let badges1 := if p.badges.contains badgeId then p.badges else p.badges ++ [badgeId]
  let badges2 :=
    if allSimsPresent sims && !(badges1.contains "master") then badges1 ++ ["master"]
    else badges1
  { totalScore := totalScore, level := level, badges := badges2,
    completedSimulations := sims }

end DisasterSimGame

/-- The View Results callback of the earthquake completeSimulation passes
this record to game.completeSimulation. -/
def EarthquakeSimulation.completionReport (s : EqSession) (timeElapsed : ℚ) :
    Option HostReport :=
  let results := EarthquakeSimulation.calculateFinalScore s timeElapsed
  some { disaster := .earthquake, score := results.total,
         timeBonus := results.timeBonus, accuracy := results.accuracy }

/-- The View Results callback of the flood completeSimulation passes this
record to game.completeSimulation. -/
def FloodSimulation.completionReport (s : FloodSession) (timeElapsed : ℚ) :
    Option HostReport :=
  let results := FloodSimulation.calculateFinalScore s timeElapsed
  some { disaster := .flood, score := results.total,
         timeBonus := results.timeBonus, accuracy := results.accuracy }

/-- The landslide completeSimulation builds an LsResults record and shows
the completion screen, whose actions are restart and return to menu; no
call to game.completeSimulation occurs anywhere in the module, so nothing
is reported to the parent controller. -/
def LandslideSimulation.completionReport (_s : LsSession) (_timeElapsed : ℚ) :
    Option HostReport :=
  none

/-- The declarative requirement record of a badge definition.  Absent
properties are none or false; checkBadgeRequirements tests presence by JS
truthiness, which Option presence models (all present numeric values are
nonzero).  evacuateAll and completeTutorials appear in badge definitions
but no branch of checkBadgeRequirements reads them. -/
structure Requirements where
  completeSimulation : Option Disaster
  minScore : Option ℤ
  maxTime : Option ℤ
  completeAllSimulations : Bool
  totalScore : Option ℤ
  completeAnyIn : Option ℤ
  perfectAccuracy : Bool
  evacuateAll : Bool
  completeTutorials : Option ℤ
deriving DecidableEq

/-- A requirement record with every property absent. -/
def emptyReq : Requirements :=
  ⟨none, none, none, false, none, none, false, false, none⟩

/-- JS comparison x <= bound where x may be undefined: a comparison with
undefined is false. -/
def jsLe (a : Option ℤ) (b : ℤ) : Bool :=
  match a with
  | none => false
  | some x => decide (x ≤ b)

/-- JS comparison x > bound where x may be undefined: a comparison with
undefined is false. -/
def jsGt (a : Option ℤ) (b : ℤ) : Bool :=
  match a with
  | none => false
  | some x => decide (x > b)

namespace BadgeSystem

/-- The requirements of this.badges by badge id. -/
def badgeRequirements (badgeId : String) : Option Requirements :=
  if badgeId = "earthquake" then
    some { emptyReq with completeSimulation := some .earthquake,
                         minScore := some 500, maxTime := some 900 }
  else if badgeId = "landslide" then
    some { emptyReq with completeSimulation := some .landslide,
                         minScore := some 600, maxTime := some 1200 }
  else if badgeId = "flood" then
    some { emptyReq with completeSimulation := some .flood,
                         minScore := some 700, maxTime := some 1500 }
  else if badgeId = "master" then
    some { emptyReq with completeAllSimulations := true, totalScore := some 2000 }
  else if badgeId = "speedRunner" then
    some { emptyReq with completeAnyIn := some 300 }
  else if badgeId = "perfectionist" then
    some { emptyReq with perfectAccuracy := true }
  else if badgeId = "lifeSaver" then
    some { emptyReq with evacuateAll := true }
  else if badgeId = "educator" then
    some { emptyReq with completeTutorials := some 3 }
  else none

/-- checkBadgeRequirements(badgeId, playerStats): the sequence of
early-return checks of the source as a conjunction, with the undefined
comparisons of JS on the possibly-missing timeElapsed field. -/
def checkBadgeRequirements (badgeId : String) (stats : PlayerData) : Bool :=
  match badgeRequirements badgeId with
  | none => false
  | some req =>
    let simOk :=
      match req.completeSimulation with
      | none => true
      | some d =>
        match lookupSim stats.completedSimulations d with
        | none => false
        | some sim =>
          if !sim.completed then false
          else if (match req.minScore with
                   | none => false
                   | some m => decide (sim.score < m)) then false
          else if (match req.maxTime with
                   | none => false
                   | some m => jsGt sim.timeElapsed m) then false
          else true
    let allOk :=
      if req.completeAllSimulations then
        [Disaster.earthquake, Disaster.landslide, Disaster.flood].all fun d =>
          match lookupSim stats.completedSimulations d with
          | none => false
          | some sim => sim.completed
      else true
    let totalOk :=
      match req.totalScore with
      | none => true
      | some t => !decide (stats.totalScore < t)
    let speedOk :=
      match req.completeAnyIn with
      | none => true
      | some t => (stats.completedSimulations.map Prod.snd).any fun sim =>
          jsLe sim.timeElapsed t
    let accOk :=
      if req.perfectAccuracy then
        (stats.completedSimulations.map Prod.snd).any fun sim =>
          decide (sim.accuracy ≥ 100)
      else true
    simOk && allOk && totalOk && speedOk && accOk

end BadgeSystem

/-- Pointwise order on the student status flags. -/
def studentLe (a b : Student) : Prop :=
  a.safe ≤ b.safe ∧ a.evacuated ≤ b.evacuated

/-- Pointwise order on the earthquake objective flags. -/
def eqObjLe (a b : EqObjectives) : Prop :=
  a.dropCoverHold ≤ b.dropCoverHold ∧ a.stayCalm ≤ b.stayCalm ∧
  a.checkInjuries ≤ b.checkInjuries ∧ a.evacuateSafely ≤ b.evacuateSafely ∧
  a.assembleAtSafePoint ≤ b.assembleAtSafePoint

/-- The earthquake objective and entity status flags only rise from a to b. -/
def eqFlagsLe (a b : EqSession) : Prop :=
  eqObjLe a.objectives b.objectives ∧ List.Forall₂ studentLe a.students b.students

/-- Pointwise order on the flood resident status flags. -/
def residentLe (a b : Resident) : Prop :=
  a.rescued ≤ b.rescued ∧ a.inShelter ≤ b.inShelter ∧
  a.needsRescue ≤ b.needsRescue ∧ a.stranded ≤ b.stranded

/-- Pointwise order on the supply status flag. -/
def supplyLe (a b : SupplyItem) : Prop :=
  a.collected ≤ b.collected

/-- Pointwise order on the flood objective flags. -/
def floodObjLe (a b : FloodObjectives) : Prop :=
  a.prepareSupplies ≤ b.prepareSupplies ∧ a.buildBarriers ≤ b.buildBarriers ∧
  a.evacuateResidents ≤ b.evacuateResidents ∧ a.rescueStranded ≤ b.rescueStranded ∧
  a.establishShelter ≤ b.establishShelter

/-- The flood objective and entity status flags only rise from a to b. -/
def floodFlagsLe (a b : FloodSession) : Prop :=
  floodObjLe a.objectives b.objectives ∧
  List.Forall₂ residentLe a.residents b.residents ∧
  List.Forall₂ supplyLe a.supplies b.supplies

/-- Pointwise order on the warning-sign status flag. -/
def signLe (a b : WarningSign) : Prop :=
  a.identified ≤ b.identified

/-- Pointwise order on the landslide resident status flag. -/
def lsResidentLe (a b : LsResident) : Prop :=
  a.evacuated ≤ b.evacuated

/-- Pointwise order on the landslide objective flags. -/
def lsObjLe (a b : LsObjectives) : Prop :=
  a.identifyWarningSigns ≤ b.identifyWarningSigns ∧
  a.activateWarningSystem ≤ b.activateWarningSystem ∧
  a.evacuateResidents ≤ b.evacuateResidents ∧
  a.reachSafeZone ≤ b.reachSafeZone ∧
  a.avoidDangerZone ≤ b.avoidDangerZone

/-- The landslide objective and entity status flags only rise from a to b. -/
def lsFlagsLe (a b : LsSession) : Prop :=
  lsObjLe a.objectives b.objectives ∧
  List.Forall₂ signLe a.warningSigns b.warningSigns ∧
  List.Forall₂ lsResidentLe a.residents b.residents

lemma forall₂_rel_refl {α : Type} (r : α → α → Prop) (h : ∀ x, r x x) :
    ∀ l : List α, List.Forall₂ r l l := by
  intro l
  induction l with
  | nil => exact .nil
  | cons a t ih => exact .cons (h a) ih

lemma forall₂_rel_map {α : Type} (r : α → α → Prop) (f : α → α)
    (hf : ∀ x, r x (f x)) (l : List α) : List.Forall₂ r l (l.map f) := by
  induction l with
  | nil => exact .nil
  | cons a t ih => exact .cons (hf a) ih

lemma forall₂_rel_listUpdate {α : Type} (r : α → α → Prop) (f : α → α)
    (hrefl : ∀ x, r x x) (hf : ∀ x, r x (f x)) :
    ∀ (l : List α) (i : Nat), List.Forall₂ r l (listUpdate l i f) := by
  intro l
  induction l with
  | nil => intro i; exact .nil
  | cons a t ih =>
    intro i
    cases i with
    | zero => exact .cons (hf a) (forall₂_rel_refl r hrefl t)
    | succ n => exact .cons (hrefl a) (ih n)

lemma studentLe_refl (x : Student) : studentLe x x := ⟨le_rfl, le_rfl⟩

lemma residentLe_refl (x : Resident) : residentLe x x := ⟨le_rfl, le_rfl, le_rfl, le_rfl⟩

lemma supplyLe_refl (x : SupplyItem) : supplyLe x x := le_rfl

lemma signLe_refl (x : WarningSign) : signLe x x := le_rfl

lemma lsResidentLe_refl (x : LsResident) : lsResidentLe x x := le_rfl

lemma eqObjLe_refl (o : EqObjectives) : eqObjLe o o :=
  ⟨le_rfl, le_rfl, le_rfl, le_rfl, le_rfl⟩

lemma floodObjLe_refl (o : FloodObjectives) : floodObjLe o o :=
  ⟨le_rfl, le_rfl, le_rfl, le_rfl, le_rfl⟩

lemma lsObjLe_refl (o : LsObjectives) : lsObjLe o o :=
  ⟨le_rfl, le_rfl, le_rfl, le_rfl, le_rfl⟩

lemma eqFlagsLe_refl (s : EqSession) : eqFlagsLe s s :=
  ⟨eqObjLe_refl _, forall₂_rel_refl _ studentLe_refl _⟩

lemma floodFlagsLe_refl (s : FloodSession) : floodFlagsLe s s :=
  ⟨floodObjLe_refl _, forall₂_rel_refl _ residentLe_refl _,
   forall₂_rel_refl _ supplyLe_refl _⟩

lemma lsFlagsLe_refl (s : LsSession) : lsFlagsLe s s :=
  ⟨lsObjLe_refl _, forall₂_rel_refl _ signLe_refl _,
   forall₂_rel_refl _ lsResidentLe_refl _⟩

lemma studentLe_setSafe (x : Student) : studentLe x { x with safe := true } :=
  ⟨Bool.le_true _, le_rfl⟩

lemma studentLe_setEvacuated (x : Student) : studentLe x { x with evacuated := true } :=
  ⟨le_rfl, Bool.le_true _⟩

lemma residentLe_setRescued (x : Resident) :
    residentLe x { x with rescued := true, inShelter := true } :=
  ⟨Bool.le_true _, Bool.le_true _, le_rfl, le_rfl⟩

lemma supplyLe_setCollected (x : SupplyItem) : supplyLe x { x with collected := true } :=
  Bool.le_true _

lemma signLe_setIdentified (x : WarningSign) : signLe x { x with identified := true } :=
  Bool.le_true _

lemma lsResidentLe_setEvacuated (x : LsResident) :
    lsResidentLe x { x with evacuated := true } :=
  Bool.le_true _

lemma eqStep_flags (op : EqOp) (s : EqSession) : eqFlagsLe s (op.step s) := by
  cases op with
  | correctDrop i j =>
    show eqFlagsLe s (EarthquakeSimulation.onCorrectDrop s i j)
    unfold EarthquakeSimulation.onCorrectDrop
    split
    · dsimp only
      split
      · exact ⟨⟨Bool.le_true _, le_rfl, le_rfl, le_rfl, le_rfl⟩,
               forall₂_rel_listUpdate studentLe (fun st => { st with safe := true })
                 studentLe_refl studentLe_setSafe _ _⟩
      · exact ⟨eqObjLe_refl _,
               forall₂_rel_listUpdate studentLe (fun st => { st with safe := true })
                 studentLe_refl studentLe_setSafe _ _⟩
    · exact eqFlagsLe_refl s
  | incorrectDrop =>
    exact ⟨eqObjLe_refl _, forall₂_rel_refl _ studentLe_refl _⟩
  | deskClick =>
    exact ⟨eqObjLe_refl _, forall₂_rel_refl _ studentLe_refl _⟩
  | exitClick =>
    exact ⟨eqObjLe_refl _, forall₂_rel_refl _ studentLe_refl _⟩
  | emergencyKitInteract =>
    exact ⟨⟨le_rfl, le_rfl, Bool.le_true _, le_rfl, le_rfl⟩,
           forall₂_rel_refl _ studentLe_refl _⟩
  | evacuateStudentDone i =>
    show eqFlagsLe s (EarthquakeSimulation.evacuateStudentDone s i)
    unfold EarthquakeSimulation.evacuateStudentDone
    dsimp only
    split
    · exact ⟨⟨le_rfl, le_rfl, le_rfl, Bool.le_true _, Bool.le_true _⟩,
             forall₂_rel_listUpdate studentLe (fun st => { st with evacuated := true })
               studentLe_refl studentLe_setEvacuated _ _⟩
    · exact ⟨eqObjLe_refl _,
             forall₂_rel_listUpdate studentLe (fun st => { st with evacuated := true })
               studentLe_refl studentLe_setEvacuated _ _⟩
  | startEarthquake => exact eqFlagsLe_refl _
  | startAftermath => exact eqFlagsLe_refl _

lemma floodResidentsInDanger_flags (s : FloodSession) :
    floodFlagsLe s (FloodSimulation.checkResidentsInDanger s) := by
  refine ⟨floodObjLe_refl _, ?_, forall₂_rel_refl _ supplyLe_refl _⟩
  refine forall₂_rel_map _ _ (fun r => ?_) _
  split
  · exact ⟨le_rfl, le_rfl, Bool.le_true _, le_rfl⟩
  · exact residentLe_refl r

lemma floodStep_flags (op : FloodOp) (s : FloodSession) :
    floodFlagsLe s (op.step s) := by
  cases op with
  | raiseWaterFrame =>
    show floodFlagsLe s (FloodSimulation.raiseWaterFrame s)
    unfold FloodSimulation.raiseWaterFrame
    split
    · unfold FloodSimulation.checkResidentsInDanger
      dsimp only
      refine ⟨floodObjLe_refl _, ?_, forall₂_rel_refl _ supplyLe_refl _⟩
      refine forall₂_rel_map _ _ (fun r => ?_) _
      split
      · exact ⟨le_rfl, le_rfl, Bool.le_true _, le_rfl⟩
      · exact residentLe_refl r
    · exact floodFlagsLe_refl s
  | checkResidentsInDanger => exact floodResidentsInDanger_flags s
  | identifyStrandedResidents =>
    refine ⟨floodObjLe_refl _, ?_, forall₂_rel_refl _ supplyLe_refl _⟩
    refine forall₂_rel_map _ _ (fun r => ?_) _
    split
    · exact ⟨le_rfl, le_rfl, Bool.le_true _, Bool.le_true _⟩
    · exact residentLe_refl r
  | evacuateResidentDone i c =>
    show floodFlagsLe s (FloodSimulation.evacuateResidentDone s i c)
    unfold FloodSimulation.evacuateResidentDone
    split
    · exact floodFlagsLe_refl s
    · split
      · dsimp only
        split
        · exact ⟨⟨le_rfl, le_rfl, Bool.le_true _, le_rfl, le_rfl⟩,
                 forall₂_rel_listUpdate residentLe
                   (fun r => { r with rescued := true, inShelter := true })
                   residentLe_refl residentLe_setRescued _ _,
                 forall₂_rel_refl _ supplyLe_refl _⟩
        · exact ⟨floodObjLe_refl _,
                 forall₂_rel_listUpdate residentLe
                   (fun r => { r with rescued := true, inShelter := true })
                   residentLe_refl residentLe_setRescued _ _,
                 forall₂_rel_refl _ supplyLe_refl _⟩
      · exact floodFlagsLe_refl s
  | performRescueDone i =>
    show floodFlagsLe s (FloodSimulation.performRescueDone s i)
    unfold FloodSimulation.performRescueDone
    dsimp only
    split
    · exact ⟨⟨le_rfl, le_rfl, le_rfl, Bool.le_true _, le_rfl⟩,
             forall₂_rel_listUpdate residentLe
               (fun r => { r with rescued := true, inShelter := true })
               residentLe_refl residentLe_setRescued _ _,
             forall₂_rel_refl _ supplyLe_refl _⟩
    · exact ⟨floodObjLe_refl _,
             forall₂_rel_listUpdate residentLe
               (fun r => { r with rescued := true, inShelter := true })
               residentLe_refl residentLe_setRescued _ _,
             forall₂_rel_refl _ supplyLe_refl _⟩
  | onSupplyClick i c =>
    show floodFlagsLe s (FloodSimulation.onSupplyClick s i c)
    unfold FloodSimulation.onSupplyClick
    split
    · exact floodFlagsLe_refl s
    · split
      · exact floodFlagsLe_refl s
      · dsimp only
        split
        · exact ⟨floodObjLe_refl _, forall₂_rel_refl _ residentLe_refl _,
                 forall₂_rel_listUpdate supplyLe
                   (fun x => { x with collected := true })
                   supplyLe_refl supplyLe_setCollected _ _⟩
        · exact ⟨floodObjLe_refl _, forall₂_rel_refl _ residentLe_refl _,
                 forall₂_rel_listUpdate supplyLe
                   (fun x => { x with collected := true })
                   supplyLe_refl supplyLe_setCollected _ _⟩
  | distributeSupplyDone i c =>
    show floodFlagsLe s (FloodSimulation.distributeSupplyDone s i c)
    unfold FloodSimulation.distributeSupplyDone
    split
    · dsimp only
      split
      · exact ⟨⟨Bool.le_true _, le_rfl, le_rfl, le_rfl, le_rfl⟩,
               forall₂_rel_refl _ residentLe_refl _,
               forall₂_rel_listUpdate supplyLe
                 (fun x => { x with collected := true })
                 supplyLe_refl supplyLe_setCollected _ _⟩
      · exact ⟨floodObjLe_refl _, forall₂_rel_refl _ residentLe_refl _,
               forall₂_rel_listUpdate supplyLe
                 (fun x => { x with collected := true })
                 supplyLe_refl supplyLe_setCollected _ _⟩
    · exact floodFlagsLe_refl s
  | setupShelterOperations =>
    exact ⟨⟨le_rfl, le_rfl, le_rfl, le_rfl, Bool.le_true _⟩,
           forall₂_rel_refl _ residentLe_refl _,
           forall₂_rel_refl _ supplyLe_refl _⟩
  | startFlood => exact floodFlagsLe_refl _
  | recedeWaterFrame =>
    show floodFlagsLe s (FloodSimulation.recedeWaterFrame s)
    unfold FloodSimulation.recedeWaterFrame
    split
    · exact floodFlagsLe_refl _
    · exact floodFlagsLe_refl _

lemma lsStep_flags (op : LsOp) (s : LsSession) : lsFlagsLe s (op.step s) := by
  cases op with
  | onWarningSignClick i =>
    show lsFlagsLe s (LandslideSimulation.onWarningSignClick s i)
    unfold LandslideSimulation.onWarningSignClick
    split
    · exact lsFlagsLe_refl s
    · split
      · exact lsFlagsLe_refl s
      · dsimp only
        split
        · exact ⟨⟨Bool.le_true _, le_rfl, le_rfl, le_rfl, le_rfl⟩,
                 forall₂_rel_listUpdate signLe
                   (fun x => { x with identified := true })
                   signLe_refl signLe_setIdentified _ _,
                 forall₂_rel_refl _ lsResidentLe_refl _⟩
        · exact ⟨lsObjLe_refl _,
                 forall₂_rel_listUpdate signLe
                   (fun x => { x with identified := true })
                   signLe_refl signLe_setIdentified _ _,
                 forall₂_rel_refl _ lsResidentLe_refl _⟩
  | activateWarningSystem =>
    show lsFlagsLe s (LandslideSimulation.activateWarningSystem s)
    unfold LandslideSimulation.activateWarningSystem
    split
    · exact lsFlagsLe_refl s
    · exact ⟨⟨le_rfl, Bool.le_true _, le_rfl, le_rfl, le_rfl⟩,
             forall₂_rel_refl _ signLe_refl _,
             forall₂_rel_refl _ lsResidentLe_refl _⟩
  | evacuateResident i z =>
    show lsFlagsLe s (LandslideSimulation.evacuateResident s i z)
    unfold LandslideSimulation.evacuateResident
    split
    · exact lsFlagsLe_refl s
    · split
      · exact lsFlagsLe_refl s
      · dsimp only
        split
        · exact ⟨⟨le_rfl, le_rfl, Bool.le_true _, le_rfl, le_rfl⟩,
                 forall₂_rel_refl _ signLe_refl _,
                 forall₂_rel_listUpdate lsResidentLe
                   (fun x => { x with evacuated := true })
                   lsResidentLe_refl lsResidentLe_setEvacuated _ _⟩
        · exact ⟨lsObjLe_refl _,
                 forall₂_rel_refl _ signLe_refl _,
                 forall₂_rel_listUpdate lsResidentLe
                   (fun x => { x with evacuated := true })
                   lsResidentLe_refl lsResidentLe_setEvacuated _ _⟩
  | checkResidentSafety =>
    show lsFlagsLe s (LandslideSimulation.checkResidentSafety s)
    unfold LandslideSimulation.checkResidentSafety
    dsimp only
    split
    · exact ⟨⟨le_rfl, le_rfl, le_rfl, le_rfl, Bool.le_true _⟩,
             forall₂_rel_refl _ signLe_refl _,
             forall₂_rel_refl _ lsResidentLe_refl _⟩
    · exact lsFlagsLe_refl _
  | onDragDropComplete t z =>
    show lsFlagsLe s (LandslideSimulation.onDragDropComplete s t z)
    unfold LandslideSimulation.onDragDropComplete
    split
    · exact lsFlagsLe_refl _
    · exact lsFlagsLe_refl _

lemma startPhase_run (phases : List Phase) (s : PhaseState) (n : Nat)
    (h : n < phases.length) :
    startPhase phases s n
      = ⟨n, s.completed, (n, (phases.getD n ⟨"", 0⟩).duration) :: s.pending⟩ := by
  unfold startPhase
  rw [if_neg (not_le.mpr h)]

lemma startPhase_complete (phases : List Phase) (s : PhaseState) (m : Nat)
    (h : phases.length ≤ m) :
    startPhase phases s m = { s with completed := true } := by
  unfold startPhase
  rw [if_pos h]

lemma fireTimer_advance (phases : List Phase) (u : PhaseState) (t : Nat × Nat)
    (h : u.currentPhase = t.1) :
    fireTimer phases u t
      = startPhase phases { u with pending := u.pending.erase t } (t.1 + 1) := by
  unfold fireTimer
  dsimp only
  rw [if_pos h]

lemma fireTimer_noop (phases : List Phase) (u : PhaseState) (t : Nat × Nat)
    (h : u.currentPhase ≠ t.1) :
    (fireTimer phases u t).currentPhase = u.currentPhase
  ∧ (fireTimer phases u t).completed = u.completed
  ∧ (fireTimer phases u t).pending = u.pending.erase t := by
  unfold fireTimer
  dsimp only
  rw [if_neg h]
  exact ⟨rfl, rfl, rfl⟩

/-- A flood session early in the flood phase with one unrescued
non-swimmer standing below the waterline. -/
def dangerSession0 : FloodSession :=
  { phase := ⟨1, false, []⟩,
    score := 0, accuracy := 100, mistakes := 0,
    waterLevel := -5, isFlooding := true,
    rescuedResidents := 0, suppliesDistributed := 0, barriersBuilt := 0,
    residents := [⟨false, false, false, false, false, -5⟩],
    supplies := [], centers := [⟨6, 0, 0⟩, ⟨8, 0, 0⟩],
    objectives := ⟨false, false, false, false, false⟩ }

/-- C1: calculateFinalScore of the earthquake and flood sessions returns
exactly the documented components: the time bonus is
max(0, floor((ceiling - elapsed)/ceiling * 200)) with ceiling 300 seconds
for earthquake and 450 for flood, the accuracy bonus is
floor(accuracy * 2), the objective bonus is 100 per true objective flag,
the flood-specific bonuses are 25 per rescued resident and 15 per
distributed supply, and the total is the base score plus the sum of all
bonus components. -/
theorem claim_C1_calculateFinalScore (es : EqSession) (fs : FloodSession) (t u : ℚ) :
    ((EarthquakeSimulation.calculateFinalScore es t).baseScore = es.score
      ∧ (EarthquakeSimulation.calculateFinalScore es t).timeBonus
          = max 0 ⌊(300 - t) / 300 * 200⌋
      ∧ (EarthquakeSimulation.calculateFinalScore es t).accuracyBonus
          = ⌊es.accuracy * 2⌋
      ∧ (EarthquakeSimulation.calculateFinalScore es t).objectiveBonus
          = 100 * (es.objectives.count : ℤ)
      ∧ (EarthquakeSimulation.calculateFinalScore es t).total
          = (EarthquakeSimulation.calculateFinalScore es t).baseScore
            + (EarthquakeSimulation.calculateFinalScore es t).timeBonus
            + (EarthquakeSimulation.calculateFinalScore es t).accuracyBonus
            + (EarthquakeSimulation.calculateFinalScore es t).objectiveBonus)
  ∧ ((FloodSimulation.calculateFinalScore fs u).baseScore = fs.score
      ∧ (FloodSimulation.calculateFinalScore fs u).timeBonus
          = max 0 ⌊(450 - u) / 450 * 200⌋
      ∧ (FloodSimulation.calculateFinalScore fs u).accuracyBonus
          = ⌊fs.accuracy * 2⌋
      ∧ (FloodSimulation.calculateFinalScore fs u).objectiveBonus
          = 100 * (fs.objectives.count : ℤ)
      ∧ (FloodSimulation.calculateFinalScore fs u).rescueBonus
          = 25 * (fs.rescuedResidents : ℤ)
      ∧ (FloodSimulation.calculateFinalScore fs u).supplyBonus
          = 15 * (fs.suppliesDistributed : ℤ)
      ∧ (FloodSimulation.calculateFinalScore fs u).total
          = (FloodSimulation.calculateFinalScore fs u).baseScore
            + (FloodSimulation.calculateFinalScore fs u).timeBonus
            + (FloodSimulation.calculateFinalScore fs u).accuracyBonus
            + (FloodSimulation.calculateFinalScore fs u).objectiveBonus
            + (FloodSimulation.calculateFinalScore fs u).rescueBonus
            + (FloodSimulation.calculateFinalScore fs u).supplyBonus) := by
  refine ⟨⟨rfl, rfl, rfl, mul_comm _ _, rfl⟩,
          ⟨rfl, rfl, rfl, mul_comm _ _, mul_comm _ _, mul_comm _ _, rfl⟩⟩

/-- C2 (code-bug evidence): in the flood module a submerged non-swimmer is
penalised 5 accuracy points on every animation frame of the water-raising
loop, with no lower clamp: after one frame the accuracy of dangerSession0
is 95 (not 90), and after 21 frames it is -5, outside [0, 100]. -/
theorem claim_C2_flood_accuracy_eval :
    (FloodSimulation.raiseWaterFrame dangerSession0).accuracy = 95
  ∧ ((FloodSimulation.raiseWaterFrame)^[21] dangerSession0).accuracy = -5 := by
  constructor
  · simp [FloodSimulation.raiseWaterFrame, FloodSimulation.checkResidentsInDanger,
          dangerSession0, FloodSimulation.floodSpeed, FloodSimulation.maxWaterLevel]
    norm_num
  · simp [FloodSimulation.raiseWaterFrame, FloodSimulation.checkResidentsInDanger,
          dangerSession0, FloodSimulation.floodSpeed, FloodSimulation.maxWaterLevel]
    norm_num

/-- C5: every modelled gameplay operation of the three disaster modules
only moves objective flags and entity status flags from false to true;
within a session only the explicit reset clears them. -/
theorem claim_C5_flags_monotone :
    (∀ (op : EqOp) (s : EqSession), eqFlagsLe s (op.step s))
  ∧ (∀ (op : FloodOp) (s : FloodSession), floodFlagsLe s (op.step s))
  ∧ (∀ (op : LsOp) (s : LsSession), lsFlagsLe s (op.step s)) :=
  ⟨eqStep_flags, floodStep_flags, lsStep_flags⟩

/-- C3: for an in-range index N, startPhase sets the current phase to N
without touching the completion latch and schedules exactly one advance
timer capturing N with the configured duration of phase N; a firing timer
whose captured index still matches runs startPhase at N+1; a firing timer
whose captured index no longer matches changes neither phase nor
completion; after a timer for the current phase fires, a second timer
with the same captured index cannot advance again; and startPhase at an
index past the end of the table triggers completion, leaving the phase
and the timers unchanged. -/
theorem claim_C3_phase_auto_advance (phases : List Phase) (s u : PhaseState)
    (n m : Nat) (t t2 : Nat × Nat) (h : n < phases.length) :
    (startPhase phases s n).currentPhase = n
  ∧ (startPhase phases s n).completed = s.completed
  ∧ (startPhase phases s n).pending
      = (n, (phases.getD n ⟨"", 0⟩).duration) :: s.pending
  ∧ (u.currentPhase = t.1 →
      fireTimer phases u t
        = startPhase phases { u with pending := u.pending.erase t } (t.1 + 1))
  ∧ (u.currentPhase ≠ t.1 →
      (fireTimer phases u t).currentPhase = u.currentPhase
      ∧ (fireTimer phases u t).completed = u.completed)
  ∧ (u.currentPhase = t.1 → t2.1 = t.1 → t.1 + 1 < phases.length →
      (fireTimer phases (fireTimer phases u t) t2).currentPhase
        = (fireTimer phases u t).currentPhase)
  ∧ (phases.length ≤ m →
      (startPhase phases s m).completed = true
      ∧ (startPhase phases s m).currentPhase = s.currentPhase
      ∧ (startPhase phases s m).pending = s.pending) := by
  refine ⟨?_, ?_, ?_, ?_, ?_, ?_, ?_⟩
  · rw [startPhase_run phases s n h]
  · rw [startPhase_run phases s n h]
  · rw [startPhase_run phases s n h]
  · intro ht
    exact fireTimer_advance phases u t ht
  · intro ht
    exact ⟨(fireTimer_noop phases u t ht).1, (fireTimer_noop phases u t ht).2.1⟩
  · intro ht ht2 hlt
    have e1 : (fireTimer phases u t).currentPhase = t.1 + 1 := by
      rw [fireTimer_advance phases u t ht,
          startPhase_run phases _ (t.1 + 1) hlt]
    have hne : (fireTimer phases u t).currentPhase ≠ t2.1 := by
      rw [e1, ht2]
      omega
    exact (fireTimer_noop phases (fireTimer phases u t) t2 hne).1
  · intro hm
    rw [startPhase_complete phases s m hm]
    exact ⟨rfl, rfl, rfl⟩

/-- A phase state in the middle of the earthquake phase table with its own
advance timer pending, used to instantiate the phase-driver theorem. -/
def phaseDemo : PhaseState := ⟨1, false, [(1, 45000)]⟩

/-- Witness for the phase auto-advance theorem at the earthquake phase
table, phase index 1 and a pending timer capturing index 1. -/
theorem claim_C3_phase_auto_advance_witness :
    (startPhase earthquakePhases phaseDemo 1).currentPhase = 1
  ∧ (startPhase earthquakePhases phaseDemo 1).completed = phaseDemo.completed
  ∧ (startPhase earthquakePhases phaseDemo 1).pending
      = (1, (earthquakePhases.getD 1 ⟨"", 0⟩).duration) :: phaseDemo.pending
  ∧ (phaseDemo.currentPhase = (1, 45000).1 →
      fireTimer earthquakePhases phaseDemo (1, 45000)
        = startPhase earthquakePhases
            { phaseDemo with pending := phaseDemo.pending.erase (1, 45000) }
            ((1, 45000).1 + 1))
  ∧ (phaseDemo.currentPhase ≠ (1, 45000).1 →
      (fireTimer earthquakePhases phaseDemo (1, 45000)).currentPhase
        = phaseDemo.currentPhase
      ∧ (fireTimer earthquakePhases phaseDemo (1, 45000)).completed
        = phaseDemo.completed)
  ∧ (phaseDemo.currentPhase = (1, 45000).1 → (1, 45000).1 = (1, 45000).1 →
      (1, 45000).1 + 1 < earthquakePhases.length →
      (fireTimer earthquakePhases
          (fireTimer earthquakePhases phaseDemo (1, 45000)) (1, 45000)).currentPhase
        = (fireTimer earthquakePhases phaseDemo (1, 45000)).currentPhase)
  ∧ (earthquakePhases.length ≤ 4 →
      (startPhase earthquakePhases phaseDemo 4).completed = true
      ∧ (startPhase earthquakePhases phaseDemo 4).currentPhase
          = phaseDemo.currentPhase
      ∧ (startPhase earthquakePhases phaseDemo 4).pending = phaseDemo.pending) :=
  claim_C3_phase_auto_advance earthquakePhases phaseDemo phaseDemo 1 4
    (1, 45000) (1, 45000) (by decide)

lemma contains_iff_mem (l : List String) (a : String) : l.contains a = true ↔ a ∈ l := by
  simp

/-- C4: the drop handler classifies a drop as correct exactly when the
item type tag is a member of the accepted set of the zone; a correct drop
invokes onCorrectDrop (score +100, mistakes and accuracy unchanged) and an
incorrect drop invokes onIncorrectDrop (score unchanged, mistakes +1,
accuracy lowered by 10 with floor 0), so both deltas are functions of the
membership alone, and the failure warning shows exactly when the mistake
count reaches the ceiling of 3. -/
theorem claim_C4_drop_classification (s : EqSession) (item : DragItem) (zone : DropZone)
    (hi : item.idx < s.students.length) (hz : zone.idx < EarthquakeSimulation.numDesks) :
    (DisasterSimGame.dropIsCorrect item zone = true ↔ item.type ∈ zone.accepts)
  ∧ (DisasterSimGame.dropIsCorrect item zone = true →
      DisasterSimGame.handleEarthquakeDrop s item zone
        = (EarthquakeSimulation.onCorrectDrop s item.idx zone.idx, false)
      ∧ (DisasterSimGame.handleEarthquakeDrop s item zone).1.score = s.score + 100
      ∧ (DisasterSimGame.handleEarthquakeDrop s item zone).1.mistakes = s.mistakes
      ∧ (DisasterSimGame.handleEarthquakeDrop s item zone).1.accuracy = s.accuracy)
  ∧ (DisasterSimGame.dropIsCorrect item zone = false →
      DisasterSimGame.handleEarthquakeDrop s item zone
        = EarthquakeSimulation.onIncorrectDrop s
      ∧ (DisasterSimGame.handleEarthquakeDrop s item zone).1.score = s.score
      ∧ (DisasterSimGame.handleEarthquakeDrop s item zone).1.mistakes = s.mistakes + 1
      ∧ (DisasterSimGame.handleEarthquakeDrop s item zone).1.accuracy
          = max 0 (s.accuracy - 10)
      ∧ ((DisasterSimGame.handleEarthquakeDrop s item zone).2 = true
          ↔ s.mistakes + 1 ≥ EarthquakeSimulation.maxMistakes)) := by
  refine ⟨contains_iff_mem _ _, ?_, ?_⟩
  · intro h
    have hd : DisasterSimGame.handleEarthquakeDrop s item zone
        = (EarthquakeSimulation.onCorrectDrop s item.idx zone.idx, false) := by
      unfold DisasterSimGame.handleEarthquakeDrop
      rw [if_pos h]
    have hc : EarthquakeSimulation.onCorrectDrop s item.idx zone.idx
        = { s with
              students := listUpdate s.students item.idx
                (fun st => { st with safe := true }),
              score := s.score + 100,
              objectives :=
                if ((((listUpdate s.students item.idx
                        (fun st => { st with safe := true })).filter (·.safe)).length : ℚ)
                      ≥ (EarthquakeSimulation.totalStudents : ℚ) * (3 / 4)) then
                  { s.objectives with dropCoverHold := true }
                else s.objectives } := by
      unfold EarthquakeSimulation.onCorrectDrop
      rw [if_pos ⟨hi, hz⟩]
    refine ⟨hd, ?_, ?_, ?_⟩ <;> rw [hd, hc]
  · intro h
    have hd : DisasterSimGame.handleEarthquakeDrop s item zone
        = EarthquakeSimulation.onIncorrectDrop s := by
      unfold DisasterSimGame.handleEarthquakeDrop
      rw [if_neg (by simp [h])]
    refine ⟨hd, ?_, ?_, ?_, ?_⟩ <;> rw [hd] <;> unfold EarthquakeSimulation.onIncorrectDrop
    · rfl
    · rfl
    · rfl
    · exact decide_eq_true_iff

/-- An earthquake session during the earthquake phase with no student safe
yet, used to instantiate the drop-classification theorem. -/
def eqDropDemo : EqSession :=
  { phase := ⟨1, false, [(1, 45000)]⟩,
    score := 20, accuracy := 100, mistakes := 0,
    evacuatedStudents := 0, isEarthquakeActive := true,
    students := [⟨false, false⟩, ⟨false, false⟩, ⟨false, false⟩, ⟨false, false⟩,
                 ⟨false, false⟩, ⟨false, false⟩, ⟨false, false⟩, ⟨false, false⟩],
    objectives := ⟨false, false, false, false, false⟩ }

/-- Witness for the drop-classification theorem: student 2 dropped on desk
5 in the earthquake drag-drop exercise. -/
theorem claim_C4_drop_classification_witness :
    (DisasterSimGame.dropIsCorrect ⟨2, "person"⟩ ⟨5, ["person"]⟩ = true
      ↔ "person" ∈ ["person"])
  ∧ (DisasterSimGame.dropIsCorrect ⟨2, "person"⟩ ⟨5, ["person"]⟩ = true →
      DisasterSimGame.handleEarthquakeDrop eqDropDemo ⟨2, "person"⟩ ⟨5, ["person"]⟩
        = (EarthquakeSimulation.onCorrectDrop eqDropDemo 2 5, false)
      ∧ (DisasterSimGame.handleEarthquakeDrop eqDropDemo
          ⟨2, "person"⟩ ⟨5, ["person"]⟩).1.score = eqDropDemo.score + 100
      ∧ (DisasterSimGame.handleEarthquakeDrop eqDropDemo
          ⟨2, "person"⟩ ⟨5, ["person"]⟩).1.mistakes = eqDropDemo.mistakes
      ∧ (DisasterSimGame.handleEarthquakeDrop eqDropDemo
          ⟨2, "person"⟩ ⟨5, ["person"]⟩).1.accuracy = eqDropDemo.accuracy)
  ∧ (DisasterSimGame.dropIsCorrect ⟨2, "person"⟩ ⟨5, ["person"]⟩ = false →
      DisasterSimGame.handleEarthquakeDrop eqDropDemo ⟨2, "person"⟩ ⟨5, ["person"]⟩
        = EarthquakeSimulation.onIncorrectDrop eqDropDemo
      ∧ (DisasterSimGame.handleEarthquakeDrop eqDropDemo
          ⟨2, "person"⟩ ⟨5, ["person"]⟩).1.score = eqDropDemo.score
      ∧ (DisasterSimGame.handleEarthquakeDrop eqDropDemo
          ⟨2, "person"⟩ ⟨5, ["person"]⟩).1.mistakes = eqDropDemo.mistakes + 1
      ∧ (DisasterSimGame.handleEarthquakeDrop eqDropDemo
          ⟨2, "person"⟩ ⟨5, ["person"]⟩).1.accuracy
            = max 0 (eqDropDemo.accuracy - 10)
      ∧ ((DisasterSimGame.handleEarthquakeDrop eqDropDemo
          ⟨2, "person"⟩ ⟨5, ["person"]⟩).2 = true
          ↔ eqDropDemo.mistakes + 1 ≥ EarthquakeSimulation.maxMistakes)) :=
  claim_C4_drop_classification eqDropDemo ⟨2, "person"⟩ ⟨5, ["person"]⟩
    (by decide) (by decide)

lemma mem_pushIfAbsent (l : List String) (a b : String) :
    (b ∈ (if l.contains a then l else l ++ [a])) ↔ (b ∈ l ∨ b = a) := by
  split
  · rename_i h
    have ha : a ∈ l := (contains_iff_mem l a).mp h
    constructor
    · exact Or.inl
    · rintro (h1 | rfl)
      · exact h1
      · exact ha
  · simp [List.mem_append]

lemma nodup_pushIfAbsent (l : List String) (a : String) (h : l.Nodup) :
    (if l.contains a then l else l ++ [a]).Nodup := by
  split
  · exact h
  · rename_i hna
    have ha : a ∉ l := fun hm => hna ((contains_iff_mem l a).mpr hm)
    simp [List.nodup_append, h, ha]

lemma mem_pushMaster (l : List String) (A : Bool) (b : String) :
    (b ∈ (if A && !(l.contains "master") then l ++ ["master"] else l))
      ↔ (b ∈ l ∨ (b = "master" ∧ A = true)) := by
  split
  · rename_i h
    simp only [Bool.and_eq_true] at h
    obtain ⟨hA, _⟩ := h
    simp [List.mem_append, hA]
  · rename_i h
    constructor
    · exact Or.inl
    · rintro (hm | ⟨rfl, hA⟩)
      · exact hm
      · rcases Bool.eq_false_or_eq_true (l.contains "master") with hc | hc
        · exact (contains_iff_mem _ _).mp hc
        · refine absurd (show (A && !l.contains "master") = true from ?_) h
          rw [hA, hc]
          rfl

lemma nodup_pushMaster (l : List String) (A : Bool) (h : l.Nodup) :
    (if A && !(l.contains "master") then l ++ ["master"] else l).Nodup := by
  split
  · rename_i hc
    simp only [Bool.and_eq_true] at hc
    obtain ⟨_, h2⟩ := hc
    have hm : "master" ∉ l := by
      intro hmm
      rw [(contains_iff_mem _ _).mpr hmm] at h2
      simp at h2
    simp [List.nodup_append, h, hm]
  · exact h

/-- An empty player profile (fresh controller state). -/
def p0 : PlayerData := ⟨0, 1, [], []⟩

/-- A completion report for the earthquake simulation with score 0. -/
def r0 : HostReport := ⟨.earthquake, 0, 0, 50⟩

/-- C6 counterexample: completing earthquake with score 0 puts the
earthquake badge into the earned set even though its requirement predicate
(minScore 500) is false on the updated profile: the controller does not
add exactly the newly satisfied badges, because it never evaluates the
requirement predicates on completion. -/
theorem claim_C6_counterexample :
    "earthquake" ∈ (DisasterSimGame.completeSimulation p0 r0 "day1").badges
  ∧ BadgeSystem.checkBadgeRequirements "earthquake"
      (DisasterSimGame.completeSimulation p0 r0 "day1") = false := by
  constructor
  · decide
  · decide

/-- C6 amended: on completion the controller awards the badge of the
completed disaster unconditionally when it is absent, and the master badge
once all three disasters have completion entries, without evaluating the
badge requirement predicates; a badge already earned is never pushed again
and a duplicate-free badge list stays duplicate-free. -/
theorem claim_C6_badge_award (p : PlayerData) (r : HostReport) (now b : String) :
    (b ∈ (DisasterSimGame.completeSimulation p r now).badges ↔
      (b ∈ p.badges ∨ b = r.disaster.id
        ∨ (b = "master"
            ∧ allSimsPresent
                (DisasterSimGame.completeSimulation p r now).completedSimulations
              = true)))
  ∧ (p.badges.Nodup → (DisasterSimGame.completeSimulation p r now).badges.Nodup) := by
  constructor
  · unfold DisasterSimGame.completeSimulation
    dsimp only
    rw [mem_pushMaster, mem_pushIfAbsent]
    tauto
  · intro hnd
    unfold DisasterSimGame.completeSimulation
    dsimp only
    exact nodup_pushMaster _ _ (nodup_pushIfAbsent _ _ hnd)

lemma lookupSim_updateSim_self (m : List (Disaster × CompletedSim)) (d : Disaster)
    (c : CompletedSim) : lookupSim (updateSim m d c) d = some c := by
  induction m with
  | nil => simp [updateSim, lookupSim]
  | cons e rest ih =>
    obtain ⟨d1, c1⟩ := e
    by_cases hd : d1 = d
    · simp [updateSim, hd, lookupSim]
    · simp [updateSim, hd, lookupSim, ih]

lemma if_gt_eq_max (a n : ℤ) : (if n > a then n else a) = max a n := by
  rcases le_or_lt n a with h | h
  · rw [if_neg (not_lt.mpr h), max_eq_left h]
  · rw [if_pos h, max_eq_right h.le]

/-- A landslide session at the end of the landslide event, with two
objectives met and base score 140. -/
def lsDemo : LsSession :=
  { phase := ⟨3, false, []⟩,
    score := 140, accuracy := 90, mistakes := 1,
    evacuatedResidents := 5, warningSystemActivated := true, warningSignsFound := 5,
    warningSigns := [⟨true⟩, ⟨true⟩, ⟨false⟩],
    residents := [⟨true⟩, ⟨false⟩],
    safeZones := [5, 0],
    objectives := ⟨true, true, false, false, false⟩ }

/-- C7 counterexample: the landslide module completion reports nothing to
the parent controller, and its final score of 340 is base 140 plus a 200
objective bonus with no time bonus component, so not every disaster module
reports a result including a time bonus via completeSimulation. -/
theorem claim_C7_counterexample :
    LandslideSimulation.completionReport lsDemo 120 = none
  ∧ (LandslideSimulation.calculateResults lsDemo 120).score = 340 := by
  constructor
  · rfl
  · decide

/-- C7 amended: the earthquake and flood modules report total, time bonus
and accuracy to the parent via completeSimulation, and the parent adds
score plus time bonus to the cumulative total, records the per-disaster
completion entry and raises the derived level when higher; the landslide
module reports nothing and its final score carries no time bonus, only
base plus objective bonus. -/
theorem claim_C7_completion_reporting (es : EqSession) (fs : FloodSession)
    (ls : LsSession) (t u v : ℚ) (p : PlayerData) (r : HostReport) (now : String) :
    EarthquakeSimulation.completionReport es t
      = some { disaster := .earthquake,
               score := (EarthquakeSimulation.calculateFinalScore es t).total,
               timeBonus := (EarthquakeSimulation.calculateFinalScore es t).timeBonus,
               accuracy := (EarthquakeSimulation.calculateFinalScore es t).accuracy }
  ∧ FloodSimulation.completionReport fs u
      = some { disaster := .flood,
               score := (FloodSimulation.calculateFinalScore fs u).total,
               timeBonus := (FloodSimulation.calculateFinalScore fs u).timeBonus,
               accuracy := (FloodSimulation.calculateFinalScore fs u).accuracy }
  ∧ LandslideSimulation.completionReport ls v = none
  ∧ (LandslideSimulation.calculateResults ls v).score
      = ls.score + (ls.objectives.count : ℤ) * 100
  ∧ (DisasterSimGame.completeSimulation p r now).totalScore
      = p.totalScore + r.score + r.timeBonus
  ∧ lookupSim (DisasterSimGame.completeSimulation p r now).completedSimulations
      r.disaster
      = some { completed := true, score := r.score, timeBonus := r.timeBonus,
               accuracy := r.accuracy, completedAt := now, timeElapsed := none }
  ∧ (DisasterSimGame.completeSimulation p r now).level
      = max p.level (⌊((p.totalScore + r.score + r.timeBonus : ℤ) : ℚ) / 1000⌋ + 1) := by
  refine ⟨rfl, rfl, rfl, rfl, rfl, ?_, ?_⟩
  · unfold DisasterSimGame.completeSimulation
    dsimp only
    exact lookupSim_updateSim_self _ _ _
  · unfold DisasterSimGame.completeSimulation
    dsimp only
    exact if_gt_eq_max _ _

/-- A fresh flood session before start(). -/
def fsInit : FloodSession :=
  { phase := ⟨0, false, []⟩,
    score := 0, accuracy := 100, mistakes := 0,
    waterLevel := -5, isFlooding := false,
    rescuedResidents := 0, suppliesDistributed := 0, barriersBuilt := 0,
    residents := [⟨false, false, false, false, true, -1⟩],
    supplies := [⟨false, 30⟩], centers := [⟨6, 0, 0⟩, ⟨8, 0, 0⟩],
    objectives := ⟨false, false, false, false, false⟩ }

/-- The flood session right after start(): phase 0 with its advance timer
pending. -/
def fsStarted : FloodSession := FloodSimulation.start fsInit

/-- C8 counterexample: the phase-0 advance timer scheduled before reset is
still pending after reset, and when it fires the session is again in phase
0, so the captured-index guard passes and the stale timer advances the
phase to 1 - the firing is not a no-op. -/
theorem claim_C8_counterexample :
    (0, 60000) ∈ fsStarted.phase.pending
  ∧ (FloodSimulation.reset fsStarted).phase.currentPhase = 0
  ∧ (0, 60000) ∈ (FloodSimulation.reset fsStarted).phase.pending
  ∧ (FloodSimulation.fireSessionTimer (FloodSimulation.reset fsStarted)
      (0, 60000)).phase.currentPhase = 1 := by
  refine ⟨?_, ?_, ?_, ?_⟩ <;> decide

/-- C8 amended: a timer firing after a session reset is a no-op exactly
when its captured phase index differs from the current phase index at
firing time; under that guard condition neither the phase nor the
completion latch changes.  (A pre-reset timer whose captured index equals
the post-reset phase index does advance the phase.) -/
theorem claim_C8_reset_stale_timer (s : FloodSession) (t : Nat × Nat)
    (h : (FloodSimulation.reset s).phase.currentPhase ≠ t.1) :
    (FloodSimulation.fireSessionTimer (FloodSimulation.reset s) t).phase.currentPhase
      = (FloodSimulation.reset s).phase.currentPhase
  ∧ (FloodSimulation.fireSessionTimer (FloodSimulation.reset s) t).phase.completed
      = (FloodSimulation.reset s).phase.completed := by
  have hn := fireTimer_noop floodPhases (FloodSimulation.reset s).phase t h
  exact ⟨hn.1, hn.2.1⟩

/-- Witness for the reset stale-timer guard: a timer capturing phase index
2 fired right after the reset of fsStarted (where the phase is 0). -/
theorem claim_C8_reset_stale_timer_witness :
    (FloodSimulation.fireSessionTimer (FloodSimulation.reset fsStarted)
        (2, 120000)).phase.currentPhase
      = (FloodSimulation.reset fsStarted).phase.currentPhase
  ∧ (FloodSimulation.fireSessionTimer (FloodSimulation.reset fsStarted)
        (2, 120000)).phase.completed
      = (FloodSimulation.reset fsStarted).phase.completed :=
  claim_C8_reset_stale_timer fsStarted (2, 120000) (by decide)

/-- A flood session with nine residents already counted rescued (the 70
percent objective already set at seven) and one resident left, with
shelter capacity remaining. -/
def fsNine : FloodSession :=
  { phase := ⟨2, false, []⟩,
    score := 500, accuracy := 100, mistakes := 0,
    waterLevel := 0, isFlooding := true,
    rescuedResidents := 9, suppliesDistributed := 0, barriersBuilt := 0,
    residents := [⟨false, false, true, true, true, -1⟩],
    supplies := [], centers := [⟨6, 5, 0⟩, ⟨8, 4, 0⟩],
    objectives := ⟨false, false, true, false, false⟩ }

/-- C9 counterexample: counting the tenth resident through the
click-evacuation path raises the rescued count to all 10 yet leaves the
rescueStranded objective false, because only the boat-rescue path checks
the all-rescued threshold. -/
theorem claim_C9_counterexample :
    (FloodSimulation.evacuateResidentDone fsNine 0 0).rescuedResidents = 10
  ∧ (FloodSimulation.evacuateResidentDone fsNine 0 0).objectives.rescueStranded
      = false := by
  constructor <;>
    norm_num [FloodSimulation.evacuateResidentDone, fsNine,
              FloodSimulation.totalResidents, listUpdate]

lemma rescued_threshold_cast (n : Nat) :
    ((n : ℚ) ≥ (FloodSimulation.totalResidents : ℚ) * (7 / 10)) ↔ n ≥ 7 := by
  have h : (FloodSimulation.totalResidents : ℚ) * (7 / 10) = 7 := by
    norm_num [FloodSimulation.totalResidents]
  rw [h]
  exact_mod_cast Iff.rfl

/-- C9 amended: the click-evacuation path increments the rescued count and
sets evacuateResidents exactly when the new count reaches 70 percent of
the 10 residents, leaving rescueStranded untouched; the boat-rescue path
increments the count and sets rescueStranded exactly when the new count
reaches all 10, leaving evacuateResidents untouched.  Each threshold is
checked only on its own path. -/
theorem claim_C9_rescue_thresholds (s : FloodSession) (i c : Nat) (cen : EvacCenter)
    (hc : s.centers.get? c = some cen) (hcap : cen.occupants < cen.capacity) :
    ((FloodSimulation.evacuateResidentDone s i c).rescuedResidents
        = s.rescuedResidents + 1
      ∧ (FloodSimulation.evacuateResidentDone s i c).objectives.evacuateResidents
          = (s.objectives.evacuateResidents || decide (s.rescuedResidents + 1 ≥ 7))
      ∧ (FloodSimulation.evacuateResidentDone s i c).objectives.rescueStranded
          = s.objectives.rescueStranded)
  ∧ ((FloodSimulation.performRescueDone s i).rescuedResidents
        = s.rescuedResidents + 1
      ∧ (FloodSimulation.performRescueDone s i).objectives.rescueStranded
          = (s.objectives.rescueStranded || decide (s.rescuedResidents + 1 ≥ 10))
      ∧ (FloodSimulation.performRescueDone s i).objectives.evacuateResidents
          = s.objectives.evacuateResidents) := by
  constructor
  · unfold FloodSimulation.evacuateResidentDone
    rw [hc]
    dsimp only
    rw [if_pos hcap]
    split
    · rename_i hge
      have h7 : s.rescuedResidents + 1 ≥ 7 := (rescued_threshold_cast _).mp hge
      refine ⟨rfl, ?_, rfl⟩
      simp [h7]
    · rename_i hlt
      have h7 : ¬(s.rescuedResidents + 1 ≥ 7) := fun hh =>
        hlt ((rescued_threshold_cast _).mpr hh)
      refine ⟨rfl, ?_, rfl⟩
      simp [h7]
  · unfold FloodSimulation.performRescueDone
    dsimp only
    split
    · rename_i hge
      have h10 : s.rescuedResidents + 1 ≥ 10 := by
        simpa [FloodSimulation.totalResidents] using hge
      refine ⟨rfl, ?_, rfl⟩
      simp [h10]
    · rename_i hlt
      have h10 : ¬(s.rescuedResidents + 1 ≥ 10) := by
        simpa [FloodSimulation.totalResidents] using hlt
      refine ⟨rfl, ?_, rfl⟩
      simp [h10]

/-- Witness for the per-path rescue thresholds at fsNine: resident 0
evacuated to center 0 (capacity 6, occupants 5). -/
theorem claim_C9_rescue_thresholds_witness :
    ((FloodSimulation.evacuateResidentDone fsNine 0 0).rescuedResidents
        = fsNine.rescuedResidents + 1
      ∧ (FloodSimulation.evacuateResidentDone fsNine 0 0).objectives.evacuateResidents
          = (fsNine.objectives.evacuateResidents
              || decide (fsNine.rescuedResidents + 1 ≥ 7))
      ∧ (FloodSimulation.evacuateResidentDone fsNine 0 0).objectives.rescueStranded
          = fsNine.objectives.rescueStranded)
  ∧ ((FloodSimulation.performRescueDone fsNine 0).rescuedResidents
        = fsNine.rescuedResidents + 1
      ∧ (FloodSimulation.performRescueDone fsNine 0).objectives.rescueStranded
          = (fsNine.objectives.rescueStranded
              || decide (fsNine.rescuedResidents + 1 ≥ 10))
      ∧ (FloodSimulation.performRescueDone fsNine 0).objectives.evacuateResidents
          = fsNine.objectives.evacuateResidents) :=
  claim_C9_rescue_thresholds fsNine 0 0 ⟨6, 5, 0⟩ (by decide) (by decide)

lemma lookupSim_mem (m : List (Disaster × CompletedSim)) (d : Disaster)
    (c : CompletedSim) (h : lookupSim m d = some c) : (d, c) ∈ m := by
  induction m with
  | nil => simp [lookupSim] at h
  | cons e rest ih =>
    obtain ⟨d1, c1⟩ := e
    by_cases hd : d1 = d
    · subst hd
      simp [lookupSim] at h
      subst h
      exact List.mem_cons_self _ _
    · simp [lookupSim, hd] at h
      exact List.mem_cons_of_mem _ (ih h)

lemma mem_updateSim (m : List (Disaster × CompletedSim)) (d : Disaster)
    (c : CompletedSim) (e : Disaster × CompletedSim)
    (h : e ∈ updateSim m d c) : e ∈ m ∨ e = (d, c) := by
  induction m with
  | nil =>
    simp [updateSim] at h
    exact Or.inr h
  | cons e1 rest ih =>
    obtain ⟨d1, c1⟩ := e1
    by_cases hd : d1 = d
    · simp only [updateSim, hd, if_pos] at h
      rcases List.mem_cons.mp h with h1 | h1
      · exact Or.inr h1
      · exact Or.inl (List.mem_cons_of_mem _ h1)
    · simp only [updateSim, hd, if_neg, ite_false] at h
      rcases List.mem_cons.mp h with h1 | h1
      · exact Or.inl (h1 ▸ List.mem_cons_self _ _)
      · rcases ih h1 with h2 | h2
        · exact Or.inl (List.mem_cons_of_mem _ h2)
        · exact Or.inr h2

lemma anyTimeLe_eq_false (t : ℤ) :
    ∀ l : List (Disaster × CompletedSim),
      (∀ e ∈ l, (Prod.snd e).timeElapsed = none) →
      ((l.map Prod.snd).any fun sim => jsLe sim.timeElapsed t) = false := by
  intro l
  induction l with
  | nil => intro _; rfl
  | cons a rest ih =>
    intro hl
    have ha := hl a (List.mem_cons_self a rest)
    have hr := ih fun e he => hl e (List.mem_cons_of_mem a he)
    simp only [List.map_cons, List.any_cons, hr, Bool.or_false]
    rw [ha]
    rfl

/-- The minScore threshold of the per-disaster badge definitions. -/
def minScoreFor : Disaster → ℤ
  | .earthquake => 500
  | .landslide => 600
  | .flood => 700

/-- The maxTime threshold of the per-disaster badge definitions. -/
def maxTimeFor : Disaster → ℤ
  | .earthquake => 900
  | .landslide => 1200
  | .flood => 1500

lemma checkDisasterBadge (stats : PlayerData) (d : Disaster) (ms mt : ℤ)
    (hreq : BadgeSystem.badgeRequirements d.id
      = some ⟨some d, some ms, some mt, false, none, none, false, false, none⟩)
    (h : ∀ e ∈ stats.completedSimulations, (Prod.snd e).timeElapsed = none) :
    BadgeSystem.checkBadgeRequirements d.id stats
      = (match lookupSim stats.completedSimulations d with
         | none => false
         | some sim => sim.completed && !decide (sim.score < ms)) := by
  unfold BadgeSystem.checkBadgeRequirements
  rw [hreq]
  dsimp only
  cases hl : lookupSim stats.completedSimulations d with
  | none => simp [hl]
  | some sim =>
    have hte : sim.timeElapsed = none := h _ (lookupSim_mem _ _ _ hl)
    cases hcomp : sim.completed
    · simp [hl, hcomp]
    · by_cases hsc : sim.score < ms
      · simp [hl, hcomp, hsc]
      · simp [hl, hcomp, hsc, hte, jsGt]

/-- C10: on profiles whose completion entries all miss the timeElapsed
field (as written by the controller), the speedRunner badge check always
returns false, and the maxTime requirement of the per-disaster badges
never disqualifies: those checks reduce to completion plus minScore; and
every entry produced by completeSimulation indeed carries no timeElapsed
field. -/
theorem claim_C10_missing_timeElapsed (stats : PlayerData)
    (h : ∀ e ∈ stats.completedSimulations, (Prod.snd e).timeElapsed = none) :
    BadgeSystem.checkBadgeRequirements "speedRunner" stats = false
  ∧ (∀ d : Disaster,
      BadgeSystem.checkBadgeRequirements d.id stats
        = (match lookupSim stats.completedSimulations d with
           | none => false
           | some sim => sim.completed && !decide (sim.score < minScoreFor d)))
  ∧ (∀ (p : PlayerData) (r : HostReport) (now : String)
        (e : Disaster × CompletedSim),
      e ∈ (DisasterSimGame.completeSimulation p r now).completedSimulations →
      e ∈ p.completedSimulations ∨ e.2.timeElapsed = none) := by
  refine ⟨?_, ?_, ?_⟩
  · unfold BadgeSystem.checkBadgeRequirements
    rw [show BadgeSystem.badgeRequirements "speedRunner"
        = some ⟨none, none, none, false, none, some 300, false, false, none⟩ from rfl]
    dsimp only
    rw [anyTimeLe_eq_false 300 stats.completedSimulations h]
    rfl
  · intro d
    cases d
    · exact checkDisasterBadge stats .earthquake 500 900 rfl h
    · exact checkDisasterBadge stats .landslide 600 1200 rfl h
    · exact checkDisasterBadge stats .flood 700 1500 rfl h
  · intro p r now e he
    unfold DisasterSimGame.completeSimulation at he
    dsimp only at he
    rcases mem_updateSim _ _ _ _ he with h1 | h1
    · exact Or.inl h1
    · right
      rw [h1]

/-- A profile with one controller-written earthquake completion entry
(timeElapsed missing). -/
def statsDemo : PlayerData :=
  ⟨600, 1, ["earthquake"],
   [(.earthquake, ⟨true, 550, 50, 80, "day1", none⟩)]⟩

/-- Witness for the missing-timeElapsed theorem at a profile with one
controller-written completion entry. -/
theorem claim_C10_missing_timeElapsed_witness :
    BadgeSystem.checkBadgeRequirements "speedRunner" statsDemo = false
  ∧ (∀ d : Disaster,
      BadgeSystem.checkBadgeRequirements d.id statsDemo
        = (match lookupSim statsDemo.completedSimulations d with
           | none => false
           | some sim => sim.completed && !decide (sim.score < minScoreFor d)))
  ∧ (∀ (p : PlayerData) (r : HostReport) (now : String)
        (e : Disaster × CompletedSim),
      e ∈ (DisasterSimGame.completeSimulation p r now).completedSimulations →
      e ∈ p.completedSimulations ∨ e.2.timeElapsed = none) :=
  claim_C10_missing_timeElapsed statsDemo (by decide)
